import Mathlib

/-!
Verification of the assignment-notification pipeline
(`google_sheets_handler.py` + `telegram_bot.py`).

The Python modules are shallowly embedded below.  Strings stay Lean
`String`s; Python's `str.strip` / `str.lower` / `str.split(sep)` are
embedded as structurally recursive functions on the character list
(`pyStrip` / `pyLower` / `pySplit`), which agree with Python on the
ASCII data the pipeline handles.  Calendar dates become `Int` day
numbers, so Python `date` subtraction yielding `timedelta.days` becomes
`Int` subtraction and `>=` on dates becomes `≥` on day numbers.  Python
dicts become insertion-ordered association lists with overwrite-in-place
update.  The free-form date parser (`dateutil.parser.parse`) is an
oracle parameter `String → Option Int`, `none` standing for the
`except` branch on unparseable input.  The Telegram transport is a
function from the attempt counter to the outcome the `try` block
observes (success, `RetryAfter`, `NetworkError`, or any other
exception), and the observable behaviour of the retry loop is its trace
of send attempts and sleeps.
-/

namespace Py

/-- Python `str.strip()`: drop leading and trailing whitespace. -/
def pyStrip (s : String) : String :=
  ⟨((s.data.dropWhile Char.isWhitespace).reverse.dropWhile Char.isWhitespace).reverse⟩

/-- Python `str.lower()` (ASCII). -/
def pyLower (s : String) : String := ⟨s.data.map Char.toLower⟩

/-- Worker for `pySplit`: `acc` holds the current chunk reversed. -/
def splitOnCharAux (sep : Char) : List Char → List Char → List String
  | [], acc => [⟨acc.reverse⟩]
  | c :: rest, acc =>
    if c = sep then ⟨acc.reverse⟩ :: splitOnCharAux sep rest []
    else splitOnCharAux sep rest (c :: acc)

/-- Python `str.split(sep)` for a one-character separator: keeps empty
chunks between consecutive separators, and `"".split(sep) == ['']`. -/
def pySplit (sep : Char) (s : String) : List String := splitOnCharAux sep s.data []

end Py

namespace GoogleSheetsHandler

open Py

/-- The separator characters `'_'`/`'-'` collapsed by `camel_case`. -/
def isSep (c : Char) : Bool := c = '_' || c = '-'

/-- Embedding of `re.sub(r'(_|-)+', ' ', text)` on the character list: each maximal
run of `_`/`-` characters becomes a single space.  The flag records
whether the previous character was such a separator. -/
def subSepsAux : Bool → List Char → List Char
  | _, [] => []
  | prevSep, c :: rest =>
    if isSep c then
      (if prevSep then [] else [' ']) ++ subSepsAux true rest
    else c :: subSepsAux false rest

/-- Python `str.title()` on the (already lowercased) words fed to it by
`camel_case`: the first character of each alphabetic run is uppercased,
the following ones lowercased.  The flag records whether the previous
character was alphabetic. -/
def pyTitleAux : Bool → List Char → List Char
  | _, [] => []
  | prevAlpha, c :: rest =>
    if c.isAlpha then
      (if prevAlpha then c.toLower else c.toUpper) :: pyTitleAux true rest
    else c :: pyTitleAux false rest

/-- Python `word.title()`. -/
def pyTitle (s : String) : String := ⟨pyTitleAux false s.data⟩

/-- Function `camel_case` from `google_sheets_handler.py`:
`text = re.sub(r'(_|-)+', ' ', text).strip().lower()`;
`words = text.split(' ')`;
`return words[0] + ''.join(word.title() for word in words[1:])`.
Python `split(' ')` always returns a non-empty list, so `words[0]`
never raises; `headD` reflects that. -/
def camel_case (text : String) : String :=
  let t := pyLower (pyStrip (String.mk (subSepsAux false text.data)))
  let words := pySplit ' ' t
  words.headD "" ++ String.join ((words.drop 1).map pyTitle)

/-- One fetched column range: a list of spreadsheet rows, each row a
list of cell strings (the API returns at most one cell per row for a
single-column range, and omits trailing empty cells, so a row may be
`[]`).  A failed fetch degrades to `[]`. -/
abbrev Column : Type := List (List String)

/-- Embedding of `values[i][0] if i < len(values) and len(values[i]) > 0 else ''` —
the cell the row-assembly loop (and the header extraction at `i = 0`)
reads from a column. -/
def cellAt (values : Column) (i : Nat) : String :=
  ((values[i]?).bind (fun cells => cells[0]?)).getD ""

/-- Embedding of `num_rows = len(all_data[RANGES[0]]) - 1 if all_data[RANGES[0]] else 0`:
the row count is driven by the first configured column alone. -/
def numRows (columns : List Column) : Nat :=
  let c0 : List (List String) := columns.headD []
  if c0.isEmpty then 0 else c0.length - 1

/-- The headers: `camel_case(all_data[r][0][0] ...)` for each range. -/
def headersOf (columns : List Column) : List String :=
  columns.map (fun c => camel_case (cellAt c 0))

/-- Python dict assignment `d[k] = v`: overwrite in place if the key is
present, otherwise append at the end (insertion order preserved). -/
def dictInsert (d : List (String × String)) (k v : String) : List (String × String) :=
  if d.any (fun p => p.1 == k) then
    d.map (fun p => if p.1 == k then (k, v) else p)
  else d ++ [(k, v)]

/-- The row dict built for source row `i`:
`row[headers[idx]] = values[i][0] if ... else ''` over the configured
columns in order. -/
def fetchRow (columns : List Column) (i : Nat) : List (String × String) :=
  ((headersOf columns).zip (columns.map (fun c => cellAt c i))).foldl
    (fun d p => dictInsert d p.1 p.2) []

/-- The raw `data_list` of `fetch_data`: `for i in range(1, num_rows + 1)`. -/
def fetchRawRows (columns : List Column) : List (List (String × String)) :=
  (List.range (numRows columns)).map (fun j => fetchRow columns (j + 1))

/-- A source row under the canonical headers, before type coercion:
every field still the raw cell string. -/
structure RawRecord where
  assignment : String
  customerName : String
  checked : String
  handOver : String
  dueDate : String
  handleBy : String
deriving DecidableEq, Repr

/-- A normalized record, after the coercion loop at the end of
`fetch_data`. -/
structure Record where
  assignment : String
  customerName : String
  checked : Bool
  handOver : Bool
  dueDate : Option Int
  handleBy : String
deriving DecidableEq, Repr

/-- Coercion `not (str(row.get(k, '')).strip().lower() == 'not yet')` — the
boolean coercion applied to the `checked` and `handOver` cells. -/
def coerceNotYet (s : String) : Bool := !(pyLower (pyStrip s) == "not yet")

/-- The normalization loop of `fetch_data`: coerce `checked` and
`handOver` with `coerceNotYet`; strip `dueDate` and, if non-empty, hand
it to the date parser (`none` on failure), otherwise `none`.  Text
fields pass through unchanged. -/
def normalizeRow (parseDate : String → Option Int) (r : RawRecord) : Record :=
  { assignment := r.assignment
    customerName := r.customerName
    checked := coerceNotYet r.checked
    handOver := coerceNotYet r.handOver
    dueDate := if pyStrip r.dueDate == "" then none else parseDate (pyStrip r.dueDate)
    handleBy := r.handleBy }

/-- The per-row predicate of `filter_not_yet`:
`(not checked_val or not handover_val) and due_date_valid` where
`due_date_valid = due_date is not None and due_date >= today`. -/
def notYetPred (today : Int) (r : Record) : Bool :=
  (!r.checked || !r.handOver) &&
    (match r.dueDate with
     | some d => decide (today ≤ d)
     | none => false)

/-- Function `filter_not_yet` from `google_sheets_handler.py`. -/
def filter_not_yet (today : Int) (l : List Record) : List Record :=
  l.filter (notYetPred today)

/-- A grouped record, `{k: v for k, v in row.items() if k != 'handleBy'}`. -/
structure GroupedRecord where
  assignment : String
  customerName : String
  checked : Bool
  handOver : Bool
  dueDate : Option Int
deriving DecidableEq, Repr

/-- The `row_copy` built by `group_by_handle_by`. -/
def dropHandleBy (r : Record) : GroupedRecord :=
  { assignment := r.assignment
    customerName := r.customerName
    checked := r.checked
    handOver := r.handOver
    dueDate := r.dueDate }

/-- Embedding of `grouped.setdefault(key, []).append(row_copy)` on an
insertion-ordered dict: append to the existing group, else create a new
singleton group at the end. -/
def insertGrouped (grouped : List (String × List GroupedRecord)) (key : String)
    (r : GroupedRecord) : List (String × List GroupedRecord) :=
  if grouped.any (fun p => p.1 == key) then
    grouped.map (fun p => if p.1 == key then (p.1, p.2 ++ [r]) else p)
  else grouped ++ [(key, [r])]

/-- Function `group_by_handle_by` from `google_sheets_handler.py`:
`key = row.get('handleBy', '')`; `if not key: continue`;
`key = str(key).strip().lower()`; then insert the `handleBy`-less copy.
Note the truthiness test happens BEFORE the strip. -/
def group_by_handle_by (l : List Record) : List (String × List GroupedRecord) :=
  l.foldl
    (fun grouped row =>
      if row.handleBy == "" then grouped
      else insertGrouped grouped (pyLower (pyStrip row.handleBy)) (dropHandleBy row))
    []

end GoogleSheetsHandler

namespace TelegramBot

open Py
open GoogleSheetsHandler

def MAX_RETRIES : Nat := 5

def RETRY_DELAY_SECONDS : Nat := 5

/-- The set `escape_chars = r'_*[]()~`>#+-=|{}.!'` — the MarkdownV2
metacharacter set of `escape_markdown`. -/
def escapeSet : List Char := "_*[]()~`>#+-=|\x7b\x7d.!".data

def isEscapeChar (c : Char) : Bool := escapeSet.contains c

/-- Embedding of `re.sub(f'([{re.escape(escape_chars)}])', r'\\\1', text)`: insert a
backslash before every character of the set. -/
def escapeSub : List Char → List Char
  | [] => []
  | c :: rest =>
    if isEscapeChar c then '\\' :: c :: escapeSub rest
    else c :: escapeSub rest

/-- Function `escape_markdown` from `telegram_bot.py`: `if not text: return ''`
(for a string argument, truthiness is non-emptiness), else the
substitution. -/
def escape_markdown (text : String) : String :=
  if text = "" then "" else ⟨escapeSub text.data⟩

/-- Decidable statement of "properly escaped": no character of the
escape set opens the text, and any character of the escape set is
immediately preceded by a backslash. -/
def chainEscaped : List Char → Bool
  | [] => true
  | [_] => true
  | a :: b :: rest => (!(isEscapeChar b) || (a == '\\')) && chainEscaped (b :: rest)

def escapedOK (l : List Char) : Bool :=
  l.head?.all (fun c => !(isEscapeChar c)) && chainEscaped l

/-- The due-date phrase of `generate_messages`, from
`days_remaining = (due_date - today).days` (dates as day numbers, so
`Int` subtraction); `if due_date:` is the `some` branch, a `date`
object being always truthy. -/
def due_str (dueDate : Option Int) (today : Int) : String :=
  match dueDate with
  | some d =>
    let days := d - today
    if days < 0 then "Past due!"
    else if days = 0 then "Due today"
    else if days = 1 then "Due in 1 day"
    else s!"Due in {days} days"
  | none => "No due date"

/-- Python `"checked" if checked else "not checked"`. -/
def checkedStr (b : Bool) : String := if b then "checked" else "not checked"

/-- Python `"handed over" if handover else "not handed over"`. -/
def handOverStr (b : Bool) : String := if b then "handed over" else "not handed over"

/-- One bullet block of `generate_messages`.  Grouped records always
carry all fields, so the dict defaults (`'No Assignment'`,
`'Unknown Customer'`) are unreachable and the values are the fields
themselves, `str` on a string being the identity. -/
def renderAssignment (today : Int) (a : GroupedRecord) : String :=
  let an := escape_markdown a.assignment
  let cn := escape_markdown a.customerName
  let ds := escape_markdown (due_str a.dueDate today)
  let cs := checkedStr a.checked
  let hs := handOverStr a.handOver
  s!"• *Assignment:* {an}\n  *Customer:* {cn}\n  *Status:* {cs} and {hs}\n  *{ds}*"

/-- Function `generate_messages` from `telegram_bot.py`: one heading plus one
block per assignment, joined with blank lines, one message body per
handler.  `todayStr` is the `%Y-%m-%d` rendering of `today`, both read
from the same process clock; the pair is passed in as the time seam. -/
def generateMessages (today : Int) (todayStr : String)
    (grouped : List (String × List GroupedRecord)) : List (String × List String) :=
  grouped.map (fun p =>
    let e := escape_markdown todayStr
    let heading := s!"📋 *Your Assignments as of {e}:*"
    (p.1, [String.intercalate "\n\n" (heading :: p.2.map (renderAssignment today))]))

/-- What the `try` block of the retry loop observes on one
`bot.send_message` call. -/
inductive Outcome where
  | success
  | retryAfter (t : Nat)
  | networkError
  | otherFailure
deriving DecidableEq, Repr

/-- Observable actions of the retry loop: a send attempt, or a sleep of
`t` seconds. -/
inductive Event where
  | send
  | sleep (t : Nat)
deriving DecidableEq, Repr

/-- How the per-message loop ends: `sent = True`, the `break` of the
generic `except`, or the `while` guard failing with the budget spent. -/
inductive SendResult where
  | sent
  | abandoned
  | exhausted
deriving DecidableEq, Repr

/-- The `while not sent and attempts < MAX_RETRIES` loop of
`send_messages`, for one message.  `transport` maps the value of
`attempts` at call time to the outcome of that `bot.send_message` call;
`fuel` keeps the invariant `fuel = MAX_RETRIES - attempts`, so `fuel =
0` is exactly the guard failing.  On `RetryAfter e`: sleep
`e.retry_after`, `attempts += 1`, loop.  On `NetworkError`: sleep
`RETRY_DELAY_SECONDS`, `attempts += 1`, loop.  On any other exception:
`break`.  On success: `sent = True` ends the loop. -/
def sendLoopAux (transport : Nat → Outcome) : Nat → Nat → List Event × SendResult
  | _, 0 => ([], .exhausted)
  | attempts, fuel + 1 =>
    match transport attempts with
    | .success => ([.send], .sent)
    | .retryAfter t =>
      let r := sendLoopAux transport (attempts + 1) fuel
      (.send :: .sleep t :: r.1, r.2)
    | .networkError =>
      let r := sendLoopAux transport (attempts + 1) fuel
      (.send :: .sleep RETRY_DELAY_SECONDS :: r.1, r.2)
    | .otherFailure => ([.send], .abandoned)

/-- The whole per-message loop: `sent = False; attempts = 0; while ...`. -/
def sendLoop (transport : Nat → Outcome) : List Event × SendResult :=
  sendLoopAux transport 0 MAX_RETRIES

/-- Number of send attempts in a trace. -/
def countSends (evs : List Event) : Nat :=
  evs.countP (fun e => match e with | .send => true | _ => false)

end TelegramBot

open Py GoogleSheetsHandler TelegramBot

/-! ## Claim theorems -/

/-- A record whose `handleBy` cell is a single space — non-empty, hence
truthy in the `if not key` guard, but blank after the strip applied
afterwards. -/
def rowBlankHandleBy : Record :=
  { assignment := "Invoice", customerName := "Acme", checked := false,
    handOver := false, dueDate := some 10, handleBy := " " }

/-- C1: the claim says a record whose `handleBy` is blank after trimming
appears in no group and no group is ever keyed by the empty string.  The
code tests truthiness of the raw `handleBy` BEFORE stripping, so a
whitespace-only `handleBy` survives the guard and is grouped under the
key `""`: evaluating `group_by_handle_by` on such a record yields a
group keyed by the empty string containing the record. -/
theorem group_by_handle_by_groups_blank_key :
    group_by_handle_by [rowBlankHandleBy] = [("", [dropHandleBy rowBlankHandleBy])] := by
  decide

/-- C2: `filter_not_yet` retains a record exactly when (`checked` is
false or `handOver` is false) and the due date is present and at least
`today`; hence `dueDate = today` is retained, an earlier or absent due
date is dropped whatever the flags, and `checked = handOver = true` is
dropped whatever the due date. -/
theorem filter_not_yet_retains_iff (today : Int) (l : List Record) (r : Record) :
    r ∈ filter_not_yet today l ↔
      r ∈ l ∧ (r.checked = false ∨ r.handOver = false) ∧
        ∃ d, r.dueDate = some d ∧ today ≤ d := by
  simp only [filter_not_yet, List.mem_filter, notYetPred]
  cases hd : r.dueDate <;>
    simp [hd, Bool.or_eq_true, Bool.and_eq_true, Bool.not_eq_true']

/-- Sample record for the C2 witness: not handed over, due on day 5. -/
def recC2 : Record :=
  { assignment := "Invoice", customerName := "Acme", checked := false,
    handOver := true, dueDate := some 5, handleBy := "bob" }

/-- Witness for C2 at a concrete record and today = 5. -/
theorem filter_not_yet_retains_iff_witness :
    recC2 ∈ filter_not_yet 5 [recC2] ↔
      recC2 ∈ [recC2] ∧ (recC2.checked = false ∨ recC2.handOver = false) ∧
        ∃ d, recC2.dueDate = some d ∧ (5 : Int) ≤ d :=
  filter_not_yet_retains_iff 5 [recC2] recC2

/-- C3: a transport rate-limited on the first two attempts and successful
on the third produces exactly 3 send attempts with a sleep before
attempts 2 and 3, ending `sent`; a transport failing permanently on the
first attempt produces exactly 1 send attempt and the message is
abandoned with no further attempts. -/
theorem sendLoop_rate_limit_and_permanent (tr trPerm : Nat → Outcome) (t0 t1 : Nat)
    (h0 : tr 0 = .retryAfter t0) (h1 : tr 1 = .retryAfter t1) (h2 : tr 2 = .success)
    (hp : trPerm 0 = .otherFailure) :
    (sendLoop tr = ([.send, .sleep t0, .send, .sleep t1, .send], .sent) ∧
      countSends (sendLoop tr).1 = 3) ∧
      sendLoop trPerm = ([.send], .abandoned) ∧ countSends (sendLoop trPerm).1 = 1 := by
  have e : sendLoop tr = ([.send, .sleep t0, .send, .sleep t1, .send], .sent) := by
    simp [sendLoop, MAX_RETRIES, sendLoopAux, h0, h1, h2]
  have ep : sendLoop trPerm = ([.send], .abandoned) := by
    simp [sendLoop, MAX_RETRIES, sendLoopAux, hp]
  exact ⟨⟨e, by rw [e]; rfl⟩, ep, by rw [ep]; rfl⟩

/-- Witness for C3: concrete transports, rate limits of 7 and 9 seconds. -/
theorem sendLoop_rate_limit_and_permanent_witness :
    (sendLoop (fun n => if n = 0 then Outcome.retryAfter 7
        else if n = 1 then Outcome.retryAfter 9 else Outcome.success) =
          ([.send, .sleep 7, .send, .sleep 9, .send], .sent) ∧
      countSends (sendLoop (fun n => if n = 0 then Outcome.retryAfter 7
        else if n = 1 then Outcome.retryAfter 9 else Outcome.success)).1 = 3) ∧
      sendLoop (fun _ => Outcome.otherFailure) = ([.send], .abandoned) ∧
        countSends (sendLoop (fun _ => Outcome.otherFailure)).1 = 1 :=
  sendLoop_rate_limit_and_permanent _ _ 7 9 rfl rfl rfl rfl

/-- C4: the rendered due-date phrase follows the days-remaining table:
negative → "Past due!", zero → "Due today", one → "Due in 1 day", more
→ "Due in N days", absent due date → "No due date". -/
theorem due_str_table (d today : Int) :
    (d - today < 0 → due_str (some d) today = "Past due!") ∧
      (d - today = 0 → due_str (some d) today = "Due today") ∧
      (d - today = 1 → due_str (some d) today = "Due in 1 day") ∧
      (1 < d - today → due_str (some d) today = "Due in " ++ toString (d - today) ++ " days") ∧
      due_str none today = "No due date" := by
  unfold due_str
  refine ⟨fun h => by simp [h], fun h => ?_, fun h => ?_, fun h => ?_, rfl⟩
  · simp [h]
  · simp [h]
  · have h1 : ¬(d - today < 0) := by omega
    have h2 : ¬(d - today = 0) := by omega
    have h3 : ¬(d - today = 1) := by omega
    simp only [h1, h2, h3, if_false]
    rfl

/-- Witness for C4: each row of the table at concrete dates. -/
theorem due_str_table_witness :
    due_str (some 9) 10 = "Past due!" ∧ due_str (some 10) 10 = "Due today" ∧
      due_str (some 11) 10 = "Due in 1 day" ∧
      due_str (some 14) 10 = "Due in " ++ toString (14 - 10 : Int) ++ " days" ∧
      due_str none 10 = "No due date" :=
  ⟨(due_str_table 9 10).1 (by decide), (due_str_table 10 10).2.1 (by decide),
    (due_str_table 11 10).2.2.1 (by decide), (due_str_table 14 10).2.2.2.1 (by decide),
    (due_str_table 14 10).2.2.2.2⟩

/-- C5: normalization coerces the `checked` cell to `false` exactly when
the cell text, stripped and lowercased, equals `"not yet"` (so to `true`
on any other text), and coerces `handOver` by the same rule. -/
theorem checked_coercion_not_yet (parseDate : String → Option Int) (r : RawRecord) :
    ((normalizeRow parseDate r).checked = false ↔ pyLower (pyStrip r.checked) = "not yet") ∧
      ((normalizeRow parseDate r).handOver = false ↔
        pyLower (pyStrip r.handOver) = "not yet") := by
  unfold normalizeRow coerceNotYet
  simp

/-- Sample raw record for the C5 witness: `checked` is "not yet" up to
case and whitespace, `handOver` is other text. -/
def rawC5 : RawRecord :=
  { assignment := "Invoice", customerName := "Acme", checked := " Not YET ",
    handOver := "done", dueDate := "2025-01-01", handleBy := "bob" }

/-- Witness for C5 at a concrete raw record. -/
theorem checked_coercion_not_yet_witness :
    ((normalizeRow (fun _ => none) rawC5).checked = false ↔
        pyLower (pyStrip rawC5.checked) = "not yet") ∧
      ((normalizeRow (fun _ => none) rawC5).handOver = false ↔
        pyLower (pyStrip rawC5.handOver) = "not yet") :=
  checked_coercion_not_yet (fun _ => none) rawC5

/-- Helper for C6: prepending any character preserves `chainEscaped`
when the tail's head is outside the escape set. -/
theorem chainEscaped_cons (x : Char) (l : List Char)
    (h1 : l.head?.all (fun c => !(isEscapeChar c)) = true)
    (h2 : chainEscaped l = true) : chainEscaped (x :: l) = true := by
  cases l with
  | nil => rfl
  | cons b rest =>
    simp only [List.head?, Option.all_some] at h1
    simp [chainEscaped, h1, h2]

/-- Helper for C6: the substitution of `escape_markdown` always yields a
properly escaped character list. -/
theorem escapeSub_escapedOK (l : List Char) : escapedOK (escapeSub l) = true := by
  have key : ∀ m : List Char,
      (escapeSub m).head?.all (fun c => !(isEscapeChar c)) = true ∧
        chainEscaped (escapeSub m) = true := by
    intro m
    induction m with
    | nil => exact ⟨rfl, rfl⟩
    | cons c rest ih =>
      by_cases hc : isEscapeChar c
      · have hbs : isEscapeChar '\\' = false := by decide
        refine ⟨?_, ?_⟩
        · simp [escapeSub, hc, hbs]
        · have inner : chainEscaped (c :: escapeSub rest) = true :=
            chainEscaped_cons c _ ih.1 ih.2
          simp [escapeSub, hc, chainEscaped, inner]
      · refine ⟨?_, ?_⟩
        · simp [escapeSub, hc]
        · have inner : chainEscaped (c :: escapeSub rest) = true :=
            chainEscaped_cons c _ ih.1 ih.2
          simpa [escapeSub, hc] using inner
  simp [escapedOK, (key l).1, (key l).2]

/-- Sample grouped record for C6: a customer name containing `.` and
`!`. -/
def sampleGrouped : GroupedRecord :=
  { assignment := "Report", customerName := "Acme Inc. Pay now!", checked := false,
    handOver := true, dueDate := some 103 }

/-- C6: in the output of the markup escape every character of the fixed
set `_*[]()~`>#+-=|{}.!` is immediately preceded by a backslash, empty
input escapes to the empty string, and the free-text values
(assignment, customer name, heading date, due-date phrase) are passed
through the escape before interpolation — in the concrete rendered
message the `.` and `!` of the customer name and the `-`s of the
heading date each carry a preceding backslash. -/
theorem escape_markdown_escapes_all :
    (∀ s : String, escapedOK (escape_markdown s).data = true) ∧
      escape_markdown "" = "" ∧
      generateMessages 100 "2026-10-12" [("bob", [sampleGrouped])] =
        [("bob",
          ["📋 *Your Assignments as of 2026\\-10\\-12:*\n\n• *Assignment:* Report\n  *Customer:* Acme Inc\\. Pay now\\!\n  *Status:* not checked and handed over\n  *Due in 3 days*"])] := by
  refine ⟨?_, rfl, ?_⟩
  · intro s
    by_cases h : s = ""
    · simp [escape_markdown, h, escapedOK, chainEscaped]
    · simp only [escape_markdown, h, if_false]
      exact escapeSub_escapedOK s.data
  · set_option maxRecDepth 10000 in rfl

/-- Witness for C6: the escape property evaluated on the sample
customer name. -/
theorem escape_markdown_escapes_all_witness :
    escapedOK (escape_markdown "Acme Inc. Pay now!").data = true :=
  escape_markdown_escapes_all.1 "Acme Inc. Pay now!"

/-- C7: the number of raw records equals the length of the first
configured column minus its header row (0 for an empty first column, in
which case there are no records at all), and a column contributes the
empty string at any row index past its length or holding an empty cell
list. -/
theorem fetch_data_row_count (columns : List Column) (c0 : Column) (rest : List Column)
    (h : columns = c0 :: rest) :
    (fetchRawRows columns).length = (if c0.isEmpty then 0 else c0.length - 1) ∧
      (c0.isEmpty = true → fetchRawRows columns = []) ∧
      (∀ (col : Column) (i : Nat), col.length ≤ i → cellAt col i = "") ∧
      (∀ (col : Column) (i : Nat), col[i]? = some [] → cellAt col i = "") := by
  refine ⟨?_, ?_, ?_, ?_⟩
  · simp [fetchRawRows, numRows, h]
  · intro he
    simp [fetchRawRows, numRows, h, he]
  · intro col i hle
    simp [cellAt, List.getElem?_eq_none hle]
  · intro col i hsome
    simp [cellAt, hsome]

/-- Column list for the C7 witness: one fetched column with a header
row, one data row, and one empty row. -/
def colsC7 : List Column := [[["Due Date"], ["2025-01-02"], []]]

/-- The first (and only) column of `colsC7`. -/
def c0C7 : Column := [["Due Date"], ["2025-01-02"], []]

/-- Witness for C7 at the concrete column list. -/
theorem fetch_data_row_count_witness :
    (fetchRawRows colsC7).length = (if c0C7.isEmpty then 0 else c0C7.length - 1) ∧
      (c0C7.isEmpty = true → fetchRawRows colsC7 = []) ∧
      (∀ (col : Column) (i : Nat), col.length ≤ i → cellAt col i = "") ∧
      (∀ (col : Column) (i : Nat), col[i]? = some [] → cellAt col i = "") :=
  fetch_data_row_count colsC7 c0C7 [] rfl

/-- Helper for C8: the retry loop makes at most `fuel` send attempts. -/
theorem countSends_sendLoopAux_le (fuel : Nat) :
    ∀ (attempts : Nat) (tr : Nat → Outcome),
      countSends (sendLoopAux tr attempts fuel).1 ≤ fuel := by
  induction fuel with
  | zero => intro a tr; simp [sendLoopAux, countSends]
  | succ n ih =>
    intro a tr
    have hih := ih (a + 1) tr
    simp only [countSends] at hih ⊢
    cases h : tr a <;> simp [sendLoopAux, h, List.countP_cons] <;> omega

/-- C8: for every transport the per-message loop makes at most
`MAX_RETRIES = 5` send attempts (the loop is a total function, so no
exception propagates for any outcome sequence), and a transport that
fails transiently forever exhausts the budget and the loop simply ends
in the `exhausted` state after exactly 5 attempts. -/
theorem sendLoop_bounded_attempts (tr : Nat → Outcome) :
    countSends (sendLoop tr).1 ≤ MAX_RETRIES ∧
      sendLoop (fun _ => Outcome.networkError) =
        ([.send, .sleep 5, .send, .sleep 5, .send, .sleep 5, .send, .sleep 5, .send, .sleep 5],
          .exhausted) :=
  ⟨countSends_sendLoopAux_le MAX_RETRIES 0 tr, by decide⟩

/-- Witness for C8 at a concrete transport. -/
theorem sendLoop_bounded_attempts_witness :
    countSends (sendLoop (fun _ => Outcome.success)).1 ≤ MAX_RETRIES ∧
      sendLoop (fun _ => Outcome.networkError) =
        ([.send, .sleep 5, .send, .sleep 5, .send, .sleep 5, .send, .sleep 5, .send, .sleep 5],
          .exhausted) :=
  sendLoop_bounded_attempts (fun _ => Outcome.success)

/-- C9: header normalization maps `"Due Date"`, `"due_date"` and
`"due-date"` to the same canonical lower-camel field key. -/
theorem camel_case_header_keys :
    camel_case "Due Date" = "dueDate" ∧ camel_case "due_date" = "dueDate" ∧
      camel_case "due-date" = "dueDate" := by
  decide

/-- C10: a raw `checked` cell that is empty or whitespace-only
normalizes to `checked = true`, likewise `handOver`; a record with both
cells blank is therefore retained by `filter_not_yet` in no run,
whatever its due date. -/
theorem blank_checked_coerces_true (parseDate : String → Option Int) (r : RawRecord)
    (hc : pyStrip r.checked = "") (hh : pyStrip r.handOver = "") :
    (normalizeRow parseDate r).checked = true ∧
      (normalizeRow parseDate r).handOver = true ∧
      ∀ (today : Int) (l : List Record), normalizeRow parseDate r ∉ filter_not_yet today l := by
  have hc' : (normalizeRow parseDate r).checked = true := by
    show coerceNotYet r.checked = true
    unfold coerceNotYet
    rw [hc]
    decide
  have hh' : (normalizeRow parseDate r).handOver = true := by
    show coerceNotYet r.handOver = true
    unfold coerceNotYet
    rw [hh]
    decide
  refine ⟨hc', hh', ?_⟩
  intro today l hmem
  have hpred := (List.mem_filter.mp hmem).2
  simp [notYetPred, hc', hh'] at hpred

/-- Raw record for the C10 witness: whitespace-only `checked`, empty
`handOver`, a valid future due date. -/
def rawC10 : RawRecord :=
  { assignment := "Invoice", customerName := "Acme", checked := "  ",
    handOver := "", dueDate := "2025-01-01", handleBy := "bob" }

/-- Witness for C10 at the concrete blank-flag raw record. -/
theorem blank_checked_coerces_true_witness :
    (normalizeRow (fun _ => some 1000) rawC10).checked = true ∧
      (normalizeRow (fun _ => some 1000) rawC10).handOver = true ∧
      ∀ (today : Int) (l : List Record),
        normalizeRow (fun _ => some 1000) rawC10 ∉ filter_not_yet today l :=
  blank_checked_coerces_true (fun _ => some 1000) rawC10 (by decide) (by decide)
